import Mathlib

/-!
Verification of the rstun client tunnel core (src/client.rs) against its
natural-language specification.  The Rust code is shallowly embedded: pure
string handling is translated directly, the mutex-guarded `State` becomes a
Lean structure with explicit state passing, spawned side effects (server
shutdowns, connection closes, migration signals) are recorded as explicit
action lists, and external collaborators (DNS resolvers, the PEM loader, the
tunnel-message codec, kernel socket calls) appear as oracle parameters.
-/

deriving instance DecidableEq for Except

namespace Rstun

/-! ## Character and number reading, mirroring Rust std net parsing

`Client::is_ip_addr` calls `addr.parse::<SocketAddr>()`, and
`Client::parse_server_addr` first tries the same parse.  The functions below
embed the grammar of Rust std `SocketAddr` parsing: a numeric reader with
overflow, digit-count and zero-prefix checks, dotted-quad IPv4, bracketed
IPv6 with optional `::` abbreviation, embedded trailing IPv4 and optional
percent scope id, each followed by a colon and a decimal port, with the whole
input consumed. -/

/-- Value of a character as a digit in the given radix (10 or 16), as in
Rust `char::to_digit`. -/
def digitVal (radix : Nat) (c : Char) : Option Nat :=
  if c.isDigit then some (c.toNat - 48)
  else if radix = 16 then
    if 97 ≤ c.toNat ∧ c.toNat ≤ 102 then some (c.toNat - 97 + 10)
    else if 65 ≤ c.toNat ∧ c.toNat ≤ 70 then some (c.toNat - 65 + 10)
    else none
  else none

/-- Core digit-consuming loop of Rust std `Parser::read_number`: consume
consecutive digits, failing on overflow past `maxVal` or on exceeding
`maxDigits`; returns the value, the digit count and the rest of the input. -/
def readNumberAux (radix maxVal : Nat) (maxDigits : Option Nat) :
    List Char → Nat → Nat → Option (Nat × Nat × List Char)
  | [], acc, count => some (acc, count, [])
  | c :: cs, acc, count =>
    match digitVal radix c with
    | none => some (acc, count, c :: cs)
    | some d =>
      let acc2 := acc * radix + d
      if maxVal < acc2 then none
      else
        match maxDigits with
        | some md =>
          if md < count + 1 then none
          else readNumberAux radix maxVal maxDigits cs acc2 (count + 1)
        | none => readNumberAux radix maxVal maxDigits cs acc2 (count + 1)

/-- Rust std `Parser::read_number`: at least one digit, optional rejection of
a redundant leading zero, bounded value and digit count. -/
def read_number (radix maxVal : Nat) (maxDigits : Option Nat)
    (allowZeroPrefix : Bool) (cs : List Char) : Option (Nat × List Char) :=
  let hasLeadingZero : Bool := match cs with
    | c :: _ => c == '0'
    | [] => false
  match readNumberAux radix maxVal maxDigits cs 0 0 with
  | none => none
  | some (v, count, rest) =>
    if count = 0 then none
    else if !allowZeroPrefix && hasLeadingZero && decide (1 < count) then none
    else some (v, rest)

/-- Consume one expected character, as Rust std `Parser::read_given_char`. -/
def read_given_char (c : Char) : List Char → Option (List Char)
  | [] => none
  | x :: xs => if x = c then some xs else none

/-- Dotted-quad IPv4 literal: four octets, each 1-3 digits, value at most
255, no redundant leading zero, separated by dots. -/
def read_ipv4 (cs : List Char) : Option ((Nat × Nat × Nat × Nat) × List Char) := do
  let (a, r1) ← read_number 10 255 (some 3) false cs
  let r2 ← read_given_char '.' r1
  let (b, r3) ← read_number 10 255 (some 3) false r2
  let r4 ← read_given_char '.' r3
  let (c, r5) ← read_number 10 255 (some 3) false r4
  let r6 ← read_given_char '.' r5
  let (d, r7) ← read_number 10 255 (some 3) false r6
  some ((a, b, c, d), r7)

/-- One step of Rust std `read_groups`: at each position, after a leading
colon separator (except at index zero), first try an embedded trailing IPv4
when at least two group slots remain, then a 1-4 hex-digit group.  The fuel
argument is the number of remaining group slots. -/
def read_groups_aux : Nat → Nat → List Char → List Nat →
    (List Nat × Bool × List Char)
  | 0, _, cs, acc => (acc, false, cs)
  | remaining + 1, i, cs, acc =>
    let afterSep : Option (List Char) :=
      if 0 < i then read_given_char ':' cs else some cs
    let ipv4Try : Option ((Nat × Nat × Nat × Nat) × List Char) :=
      if 1 ≤ remaining then
        match afterSep with
        | some cs2 => read_ipv4 cs2
        | none => none
      else none
    match ipv4Try with
    | some ((a, b, c, d), rest) =>
      (acc ++ [a * 256 + b, c * 256 + d], true, rest)
    | none =>
      match (match afterSep with
             | some cs2 => read_number 16 65535 (some 4) true cs2
             | none => none) with
      | some (g, rest) => read_groups_aux remaining (i + 1) rest (acc ++ [g])
      | none => (acc, false, cs)

/-- Rust std `Parser::read_ipv6_addr`: up to eight head groups; a full eight
groups is a complete address; otherwise an embedded IPv4 may not precede
`::`, a literal `::` follows, and the tail reads at most `7 - head` groups,
the abbreviation standing for the zero groups in between. -/
def read_ipv6 (cs : List Char) : Option (List Nat × List Char) :=
  let (head, headIpv4, r0) := read_groups_aux 8 0 cs []
  if head.length = 8 then some (head, r0)
  else if headIpv4 then none
  else
    match read_given_char ':' r0 with
    | none => none
    | some r1 =>
      match read_given_char ':' r1 with
      | none => none
      | some r2 =>
        let limit := 8 - (head.length + 1)
        let (tail, _, r3) := read_groups_aux limit 0 r2 []
        some (head ++ List.replicate (8 - head.length - tail.length) 0 ++ tail, r3)

/-- IP address model: a dotted-quad IPv4 or an eight-group IPv6. -/
inductive IpAddrM
  | v4 (a b c d : Nat)
  | v6 (groups : List Nat)
deriving DecidableEq

/-- Socket address model: IP, port, and (for bracketed IPv6 literals) a
percent scope id. -/
structure SockAddrM where
  ip : IpAddrM
  port : Nat
  scope : Nat
deriving DecidableEq

/-- Rust std `SocketAddrV4` grammar: IPv4 literal, colon, decimal port (at
most 65535, leading zeros allowed), entire input consumed. -/
def parse_sock_v4 (cs : List Char) : Option SockAddrM := do
  let ((a, b, c, d), r1) ← read_ipv4 cs
  let r2 ← read_given_char ':' r1
  let (p, r3) ← read_number 10 65535 none true r2
  if r3 = [] then some ⟨IpAddrM.v4 a b c d, p, 0⟩ else none

/-- Rust std `SocketAddrV6` grammar: bracketed IPv6 literal with optional
percent scope id, colon, decimal port, entire input consumed. -/
def parse_sock_v6 (cs : List Char) : Option SockAddrM := do
  let r1 ← read_given_char '[' cs
  let (groups, r2) ← read_ipv6 r1
  let (scope, r3) :=
    match read_given_char '%' r2 with
    | some rr =>
      match read_number 10 4294967295 none true rr with
      | some (sc, rrr) => (sc, rrr)
      | none => (0, r2)
    | none => (0, r2)
  let r4 ← read_given_char ']' r3
  let r5 ← read_given_char ':' r4
  let (p, r6) ← read_number 10 65535 none true r5
  if r6 = [] then some ⟨IpAddrM.v6 groups, p, scope⟩ else none

/-- Rust `addr.parse::<SocketAddr>()`: the IPv4 form or the IPv6 form. -/
def parse_socket_addr (s : String) : Option SockAddrM :=
  match parse_sock_v4 s.data with
  | some sa => some sa
  | none => parse_sock_v6 s.data

/-- Embeds `Client::is_ip_addr`: `addr.parse::<SocketAddr>().is_ok()`. -/
def is_ip_addr (addr : String) : Bool :=
  (parse_socket_addr addr).isSome

/-! ## Splitting at the last colon

Both `Client::extract_domain_or_ip` and `Client::parse_server_addr` use
`str::rfind` on a colon: the text before the LAST colon is the host, the text
after it the port.  `splitLastColon` embeds that: it returns the characters
strictly before and strictly after the last colon, or `none` when the string
holds no colon. -/

/-- Split a character list at its last colon, returning the parts before and
after it; `none` when no colon occurs. -/
def splitLastColon : List Char → Option (List Char × List Char)
  | [] => none
  | c :: rest =>
    match splitLastColon rest with
    | some (pre, post) => some (c :: pre, post)
    | none => if c = ':' then some ([], rest) else none

/-- Embeds `Client::extract_domain_or_ip`: the substring of
`config.server_addr` before its last colon, or the whole string when no colon
is present. -/
def extract_domain_or_ip (server_addr : String) : String :=
  match splitLastColon server_addr.data with
  | some (pre, _) => String.mk pre
  | none => server_addr

/-- Rust `str::parse::<u16>()`: optional leading plus sign, then at least one
decimal digit, value at most 65535, nothing else. -/
def parse_u16 (cs : List Char) : Option Nat :=
  let ds := match cs with
    | '+' :: rest => rest
    | _ => cs
  match ds with
  | [] => none
  | _ => parse_u16_digits ds 0
where
  /-- Digit loop with the u16 overflow check of Rust `from_str_radix`. -/
  parse_u16_digits : List Char → Nat → Option Nat
    | [], acc => some acc
    | c :: cs, acc =>
      if c.isDigit then
        let acc2 := acc * 10 + (c.toNat - 48)
        if 65535 < acc2 then none else parse_u16_digits cs acc2
      else none

/-- Default server port of the client, `DEFAULT_SERVER_PORT` in the source. -/
def DEFAULT_SERVER_PORT : Nat := 3515

/-- Embeds the host/port split of `Client::parse_server_addr` (lines 991 to
1000): the domain is the text before the last colon and the port the parsed
text after it (a parse failure is the fatal `invalid address` error); with no
colon the whole input is the domain and the port defaults to 3515. -/
def parse_server_addr_domain_port (server_addr : String) :
    Except String (String × Nat) :=
  match splitLastColon server_addr.data with
  | some (pre, post) =>
    match parse_u16 post with
    | some p => Except.ok (String.mk pre, p)
    | none => Except.error "invalid address"
  | none => Except.ok (server_addr, DEFAULT_SERVER_PORT)

/-! ## Address resolution ladder

`Client::lookup_server_ip` builds a resolver from a DoT server, a plain
name-server list, or neither (system DNS), and queries it.  The resolver
itself is the external `rs_utilities::dns` crate, so it is abstracted as an
oracle taking exactly the three arguments of `lookup_server_ip`: the domain,
the DoT server (empty when unused) and the name-server list. -/

/-- Resolution oracle shape: domain, DoT server, plain name servers. -/
abbrev LookupOracle := String → String → List String → Option IpAddrM

/-- Embeds the DoT loop of `Client::parse_server_addr`: each configured DoT
server is tried in order and the first successful answer wins. -/
def try_dot_servers (lookup : LookupOracle) (domain : String) :
    List String → Option IpAddrM
  | [] => none
  | dot :: rest =>
    match lookup domain dot [] with
    | some ip => some ip
    | none => try_dot_servers lookup domain rest

/-- Embeds `Client::parse_server_addr`: return a literal socket address
as-is; otherwise split host and port (default 3515), try every DoT server in
order, then the configured plain DNS servers, then system DNS, and fail
fatally when every strategy fails. -/
def parse_server_addr (server_addr : String) (dot_servers dns_servers : List String)
    (lookup : LookupOracle) : Except String SockAddrM :=
  match parse_socket_addr server_addr with
  | some sa => Except.ok sa
  | none =>
    match parse_server_addr_domain_port server_addr with
    | Except.error e => Except.error e
    | Except.ok (domain, port) =>
      match try_dot_servers lookup domain dot_servers with
      | some ip => Except.ok ⟨ip, port, 0⟩
      | none =>
        match lookup domain "" dns_servers with
        | some ip => Except.ok ⟨ip, port, 0⟩
        | none =>
          match lookup domain "" [] with
          | some ip => Except.ok ⟨ip, port, 0⟩
          | none => Except.error "failed to resolve domain"

/-- First defined value in a list of attempts, in order. -/
def first_some {α : Type} : List (Option α) → Option α
  | [] => none
  | o :: rest =>
    match o with
    | some a => some a
    | none => first_some rest

/-- Modelled from the spec: the resolution strategy written exactly as the
specification words it — short-circuit on first success in this order:
(1) a literal socket address is returned as-is; (2) the port is split off
with default 3515; (3) each configured DoT server in order; (4) the
configured plain DNS servers; (5) system DNS; all failing is a fatal
resolution error.  It is compared with `parse_server_addr`, which embeds the
source. -/
def resolve_spec (server_addr : String) (dot_servers dns_servers : List String)
    (lookup : LookupOracle) : Except String SockAddrM :=
  match parse_socket_addr server_addr with
  | some sa => Except.ok sa
  | none =>
    match parse_server_addr_domain_port server_addr with
    | Except.error e => Except.error e
    | Except.ok (domain, port) =>
      let strategies :=
        dot_servers.map (fun dot => lookup domain dot []) ++
          [lookup domain "" dns_servers, lookup domain "" []]
      match first_some strategies with
      | some ip => Except.ok ⟨ip, port, 0⟩
      | none => Except.error "failed to resolve domain"

/-! ## Client state machine and the shared state table

`ClientState`, the `State` struct behind `inner_state: Arc<Mutex<State>>`,
and the operations on it.  External handles (servers, QUIC connections and
endpoints, the oneshot stop sender, the task join handle) are identified by
numeric ids; the `tunnel_info_bridge` listener is external and the posting
helpers only read `on_info_report_enabled`, so the bridge itself is not
modelled.  Side effects that the Rust code spawns (server shutdown,
connection close, migration signal and join, the blocking grace sleep) are
recorded in an explicit `StopAction` list. -/

/-- Embeds `ClientState` from the source. -/
inductive ClientState
  | Idle
  | Connecting
  | Connected
  | LoggingIn
  | Tunneling
  | Stopping
  | Terminated
deriving DecidableEq, BEq

/-- Embeds `TunnelTraffic` (accumulated traffic counters). -/
structure TunnelTraffic where
  rx_bytes : Nat
  tx_bytes : Nat
  rx_dgrams : Nat
  tx_dgrams : Nat
deriving DecidableEq

/-- Embeds the `udp_rx`/`udp_tx` portions of `quinn::ConnectionStats` read by
the traffic reporter. -/
structure ConnStats where
  udp_rx_bytes : Nat
  udp_tx_bytes : Nat
  udp_rx_dgrams : Nat
  udp_tx_dgrams : Nat
deriving DecidableEq

/-- Embeds a `quinn::Connection` handle: an id, its stats, and the result of
`close_reason()` (`none` while the connection is still open). -/
structure Connection where
  id : Nat
  stats : ConnStats
  close_reason : Option Nat
deriving DecidableEq

/-- Embeds a `quinn::Endpoint` handle: an id and the result of
`local_addr()` (`none` models the call failing). -/
structure Endpoint where
  id : Nat
  local_addr : Option SockAddrM
deriving DecidableEq

/-- Embeds the `State` struct guarded by the client's single mutex.  The
maps keyed by `SocketAddr` become association lists keyed by an abstract
address id. -/
structure State where
  tcp_servers : List (Nat × Nat)
  udp_servers : List (Nat × Nat)
  endpoints : List (Nat × Endpoint)
  connections : List (Nat × Connection)
  client_state : ClientState
  total_traffic_data : TunnelTraffic
  on_info_report_enabled : Bool
  migration_stop_sender : Option Nat
  migration_handle : Option Nat
deriving DecidableEq

/-- HashMap `get` on the association-list embedding. -/
def lookupKey {α : Type} (l : List (Nat × α)) (k : Nat) : Option α :=
  match l.find? (fun p => p.1 == k) with
  | some p => some p.2
  | none => none

/-- Side effects scheduled by `stop`/`stop_async`. -/
inductive StopAction
  | signalMigration
  | awaitMigration (handle : Nat)
  | shutdownTcp (id : Nat)
  | shutdownUdp (id : Nat)
  | closeConn (id : Nat) (code : Nat) (reason : List Nat)
  | sleepGrace (secs : Nat)
deriving DecidableEq

/-- Embeds `Client::set_and_post_tunnel_state`: under the lock, assign the
new state unconditionally (and post a telemetry record, which carries no
state). -/
def set_and_post_tunnel_state (s : State) (client_state : ClientState) : State :=
  { s with client_state := client_state }

/-- Embeds `Client::should_quit`. -/
def should_quit (s : State) : Bool :=
  s.client_state == ClientState.Stopping || s.client_state == ClientState.Terminated

/-- Embeds `Client::stop`: set `Stopping`; under the lock take and fire the
migration stop sender, spawn a shutdown for every TCP and UDP server, spawn a
close with code 1 and empty reason for every connection, clear those three
maps and drop the migration handle (`endpoints` is left untouched); then
sleep a fixed 3 second grace.  `Terminated` is never set. -/
def stop (s : State) : State × List StopAction :=
  let s1 := set_and_post_tunnel_state s ClientState.Stopping
  let sigActs := match s1.migration_stop_sender with
    | some _ => [StopAction.signalMigration]
    | none => []
  let tcpActs := s1.tcp_servers.map (fun p => StopAction.shutdownTcp p.2)
  let udpActs := s1.udp_servers.map (fun p => StopAction.shutdownUdp p.2)
  let closeActs := s1.connections.map (fun p => StopAction.closeConn p.2.id 1 [])
  let s2 := { s1 with
    migration_stop_sender := none
    tcp_servers := []
    udp_servers := []
    connections := []
    migration_handle := none }
  (s2, sigActs ++ tcpActs ++ udpActs ++ closeActs ++ [StopAction.sleepGrace 3])

/-- Embeds `Client::stop_async`: set `Stopping`; take and fire the migration
stop sender; take and await the migration handle; spawn the same shutdown and
close tasks as `stop`; clear the same three maps and both migration fields
(`endpoints` is again left untouched); await the scheduled tasks; finally set
`Terminated`. -/
def stop_async (s : State) : State × List StopAction :=
  let s1 := set_and_post_tunnel_state s ClientState.Stopping
  let sigActs := match s1.migration_stop_sender with
    | some _ => [StopAction.signalMigration]
    | none => []
  let awaitActs := match s1.migration_handle with
    | some h => [StopAction.awaitMigration h]
    | none => []
  let tcpActs := s1.tcp_servers.map (fun p => StopAction.shutdownTcp p.2)
  let udpActs := s1.udp_servers.map (fun p => StopAction.shutdownUdp p.2)
  let closeActs := s1.connections.map (fun p => StopAction.closeConn p.2.id 1 [])
  let s2 := { s1 with
    migration_stop_sender := none
    migration_handle := none
    tcp_servers := []
    udp_servers := []
    connections := [] }
  let s3 := set_and_post_tunnel_state s2 ClientState.Terminated
  (s3, sigActs ++ awaitActs ++ tcpActs ++ udpActs ++ closeActs)

/-- Embeds the registration step of `Client::connect_and_serve` after a
successful login (lines 411 to 417): insert the connection and endpoint
under `local_server_addr`. -/
def connect_and_serve_register (s : State) (local_server_addr : Nat)
    (conn : Connection) (endpoint : Endpoint) : State :=
  { s with
    connections := (local_server_addr, conn) ::
      s.connections.filter (fun p => p.1 != local_server_addr)
    endpoints := (local_server_addr, endpoint) ::
      s.endpoints.filter (fun p => p.1 != local_server_addr) }

/-- Embeds the deregistration step of `Client::connect_and_serve` after a
serve routine returns (lines 459 to 463): remove the connection and endpoint
under `local_server_addr`.  Nothing else is touched — in particular
`total_traffic_data` is not updated. -/
def connect_and_serve_deregister (s : State) (local_server_addr : Nat) : State :=
  { s with
    connections := s.connections.filter (fun p => p.1 != local_server_addr)
    endpoints := s.endpoints.filter (fun p => p.1 != local_server_addr) }

/-- Embeds the first transition of `Client::login`:
`set_and_post_tunnel_state(ClientState::Connecting)`. -/
def login_set_connecting (s : State) : State :=
  set_and_post_tunnel_state s ClientState.Connecting

/-! ## Migration scheduler -/

/-- Kernel and QUIC oracles used by `perform_connection_migration`:
`bind` models `std::net::UdpSocket::bind` combined with the
`local_addr()` readback (the kernel-assigned actual address, or failure),
`rebind` models `quinn::Endpoint::rebind` succeeding or failing. -/
structure MigrationEnv where
  bind : SockAddrM → Option SockAddrM
  rebind : Nat → SockAddrM → Bool

/-- True for the IPv6 variant. -/
def IpAddrM.isV6 : IpAddrM → Bool
  | IpAddrM.v4 _ _ _ _ => false
  | IpAddrM.v6 _ => true

/-- All-zero address test. -/
def IpAddrM.isUnspecified : IpAddrM → Bool
  | IpAddrM.v4 a b c d => a == 0 && b == 0 && c == 0 && d == 0
  | IpAddrM.v6 gs => gs.all (fun g => g == 0)

/-- Embeds the new-address choice of `perform_connection_migration`: an
unspecified address of the same IP family as the current local address, with
port 0 so the kernel assigns one. -/
def unspecified_same_family (a : SockAddrM) : SockAddrM :=
  match a.ip with
  | IpAddrM.v4 _ _ _ _ => ⟨IpAddrM.v4 0 0 0 0, 0, 0⟩
  | IpAddrM.v6 _ => ⟨IpAddrM.v6 [0, 0, 0, 0, 0, 0, 0, 0], 0, 0⟩

/-- Embeds `Client::perform_connection_migration`: read the current local
address, bind a fresh unspecified UDP socket of the same family, and rebind
the endpoint to it; every step failing is an error return (which the caller
logs and ignores).  On success the kernel-assigned new address is returned. -/
def perform_connection_migration (env : MigrationEnv) (e : Endpoint) :
    Except String SockAddrM :=
  match e.local_addr with
  | none => Except.error "failed to get current local address"
  | some current =>
    match env.bind (unspecified_same_family current) with
    | none => Except.error "failed to bind new socket for migration"
    | some actual =>
      if env.rebind e.id actual then Except.ok actual
      else Except.error "failed to rebind endpoint during migration"

/-- Embeds the snapshot taken under the lock on each tick of
`start_unified_migration_task`: the (address, endpoint) pairs whose
registered connection reports no close reason. -/
def migration_snapshot (s : State) : List (Nat × Endpoint) :=
  s.endpoints.filterMap (fun p =>
    match lookupKey s.connections p.1 with
    | some conn =>
      if conn.close_reason = none then some p else none
    | none => none)

/-- Embeds one migration tick: after the snapshot the lock is released and
each snapshotted endpoint is migrated in turn, the per-endpoint result being
logged and discarded, never aborting the task. -/
def migration_tick (env : MigrationEnv) (s : State) :
    List (Nat × Except String SockAddrM) :=
  (migration_snapshot s).map (fun p => (p.1, perform_connection_migration env p.2))

/-! ## Login handshake outcome -/

/-- Modelled from the spec: the tunnel-message codec is an external module
(`tunnel_message`), specified as a request/response oracle whose replies are
`RespSuccess` (with an optional server-assigned payload) or
`RespFailure(string)`; the request constructor `ReqLogin` also travels the
wire. -/
inductive TunnelMessage
  | ReqLogin (password : String)
  | RespFailure (msg : String)
  | RespSuccess (payload : String)
deriving DecidableEq

/-- Modelled from the spec: `TunnelMessage::is_resp_success` recognizes
exactly the success response. -/
def is_resp_success : TunnelMessage → Bool
  | TunnelMessage.RespSuccess _ => true
  | _ => false

/-- Login errors of `Client::login`; each carries the tunnel index and the
remote address that the source formats into the error text. -/
inductive LoginError
  | loginFailure (index : Nat) (remote : SockAddrM) (msg : String)
  | unexpectedResponse (index : Nat) (remote : SockAddrM)
deriving DecidableEq

/-- Successful login result: the connection, and whether the message
post-handler (`TunnelMessage::handle_message`) was invoked. -/
structure LoginOutcome where
  conn : Nat
  handled : Bool
deriving DecidableEq

/-- Embeds the response dispatch of `Client::login` (lines 672 to 694): a
`RespFailure` response fails with the failure message plus index and remote
address; any response not recognized as success fails as an unexpected
response; otherwise the post-handler runs and the connection is returned. -/
def login_handle_response (index : Nat) (remote : SockAddrM) (conn : Nat)
    (resp : TunnelMessage) : Except LoginError LoginOutcome :=
  match resp with
  | TunnelMessage.RespFailure msg =>
    Except.error (LoginError.loginFailure index remote msg)
  | r =>
    if is_resp_success r then Except.ok ⟨conn, true⟩
    else Except.error (LoginError.unexpectedResponse index remote)

/-! ## TLS configuration selection -/

/-- The three verifier strategies of `parse_client_config_and_domain`. -/
inductive TlsVerifier
  | platformTrust
  | insecureAcceptAny
  | pinnedRoots (roots : List Nat)
deriving DecidableEq

/-- Embeds `Client::parse_client_config_and_domain`.  `cipher_ok` stands for
`SelectedCipherSuite::from_str` succeeding (the cipher table lives outside
this file's source); `pem_certificates` is the external PEM loader's result:
`none` a read failure, otherwise the certificates found in the file.  With no
certificate configured, a server address that does not parse as a literal
socket address uses the platform verifier with the extracted host as TLS
server name, and one that does uses the insecure accept-any verifier with
server name `localhost`; with a certificate path, the loaded certificates
(which must be non-empty) become a fresh root store and the extracted host is
the server name. -/
def parse_client_config_and_domain (cipher_ok : Bool)
    (cert_path server_addr : String) (pem_certificates : Option (List Nat)) :
    Except String (TlsVerifier × String) :=
  if cipher_ok = false then Except.error "invalid cipher"
  else if cert_path = "" then
    if is_ip_addr server_addr = false then
      Except.ok (TlsVerifier.platformTrust, extract_domain_or_ip server_addr)
    else
      Except.ok (TlsVerifier.insecureAcceptAny, "localhost")
  else
    match pem_certificates with
    | none => Except.error "failed to read from cert file"
    | some [] => Except.error "no certificates found in provided file"
    | some certs =>
      Except.ok (TlsVerifier.pinnedRoots certs, extract_domain_or_ip server_addr)

/-! ## QUIC idle timeout and keep-alive -/

/-- Embeds the idle-timeout block of `Client::prepare_login_config` (lines
611 to 618).  `quic_timeout_ms` is a u64; when it is 0 neither value is set;
otherwise the max idle timeout is `VarInt::from_u32(quic_timeout_ms as u32)`
milliseconds — a truncation modulo 2^32 — and the keep-alive interval is
`quic_timeout_ms * 2 / 3` milliseconds in u64 arithmetic. -/
def prepare_login_config_timeouts (quic_timeout_ms : Nat) : Option (Nat × Nat) :=
  if 0 < quic_timeout_ms then
    some (quic_timeout_ms % 4294967296,
      quic_timeout_ms * 2 % 18446744073709551616 / 3)
  else none

/-! ## Retry with exponential backoff

`connect_and_serve` retries connection establishment through
`backon::ExponentialBuilder::default()` with `max_delay` 10 s and
`max_times(usize::MAX)`, aborting early through `.when(|_| !should_quit())`;
`start_tcp_server`/`start_udp_server` use the same builder with
`max_times(10)` and no `when` predicate.  The builder's defaults are a 1 s
initial delay and factor 2 without jitter, so the delay before retry `k` is
`min(1000 * 2^k, 10000)` milliseconds.  The loop is embedded with the
attempt outcomes as an oracle `attempt : Nat → Bool` and the `when`
predicate observed after the k-th failure as `quitAfter : Nat → Bool`. -/

/-- Delay in milliseconds before retry `k` (0-based) under
`ExponentialBuilder::default().with_max_delay(Duration::from_secs(10))`. -/
def backoff_delay_ms (k : Nat) : Nat :=
  min (1000 * 2 ^ k) 10000

/-- Result of a retried operation together with the number of attempts
performed. -/
inductive RetryOutcome
  | succeeded (attempts : Nat)
  | aborted (attempts : Nat)
  | exhausted (attempts : Nat)
deriving DecidableEq

/-- Attempt count of a retry outcome. -/
def RetryOutcome.attempts : RetryOutcome → Nat
  | RetryOutcome.succeeded n => n
  | RetryOutcome.aborted n => n
  | RetryOutcome.exhausted n => n

/-- Embeds the `backon` retry loop: run attempt `k`; on success stop; on
failure stop when the `when` predicate rejects retrying (for the connect loop
that is `should_quit()` observing `Stopping` or `Terminated`); otherwise
retry while fuel — the configured `max_times` — remains. -/
def retry_loop (attempt quitAfter : Nat → Bool) : Nat → Nat → RetryOutcome
  | 0, k =>
    if attempt k then RetryOutcome.succeeded (k + 1)
    else if quitAfter k then RetryOutcome.aborted (k + 1)
    else RetryOutcome.exhausted (k + 1)
  | fuel + 1, k =>
    if attempt k then RetryOutcome.succeeded (k + 1)
    else if quitAfter k then RetryOutcome.aborted (k + 1)
    else retry_loop attempt quitAfter fuel (k + 1)

/-- The Rust `usize::MAX` on 64-bit targets. -/
def USIZE_MAX : Nat := 18446744073709551615

/-- Embeds the connection-establishment retry of `connect_and_serve`:
`max_times(usize::MAX)` with the `should_quit` abort predicate. -/
def connect_with_retry (attempt quitAfter : Nat → Bool) : RetryOutcome :=
  retry_loop attempt quitAfter USIZE_MAX 0

/-- Embeds the local TCP/UDP server bind retry of
`start_tcp_server`/`start_udp_server`: `max_times(10)` and no abort
predicate. -/
def bind_with_retry (attempt : Nat → Bool) : RetryOutcome :=
  retry_loop attempt (fun _ => false) 10 0

/-! ## Concrete states used by counterexamples and witnesses -/

/-- A live tunneling state: one TCP server, one UDP server, one endpoint and
one open connection, with a migration task running. -/
def live_state : State where
  tcp_servers := [(1, 11)]
  udp_servers := [(2, 12)]
  endpoints := [(3, ⟨100, none⟩)]
  connections := [(3, ⟨200, ⟨1, 2, 3, 4⟩, none⟩)]
  client_state := ClientState.Tunneling
  total_traffic_data := ⟨0, 0, 0, 0⟩
  on_info_report_enabled := false
  migration_stop_sender := some 5
  migration_handle := some 6

/-- A tunneling state with one open connection carrying non-zero final
counters. -/
def traffic_state : State where
  tcp_servers := []
  udp_servers := []
  endpoints := [(7, ⟨400, none⟩)]
  connections := [(7, ⟨300, ⟨5, 6, 7, 8⟩, none⟩)]
  client_state := ClientState.Tunneling
  total_traffic_data := ⟨0, 0, 0, 0⟩
  on_info_report_enabled := false
  migration_stop_sender := none
  migration_handle := none

/-- A client that has already reached `Terminated`. -/
def terminated_state : State where
  tcp_servers := []
  udp_servers := []
  endpoints := []
  connections := []
  client_state := ClientState.Terminated
  total_traffic_data := ⟨0, 0, 0, 0⟩
  on_info_report_enabled := false
  migration_stop_sender := none
  migration_handle := none

/-! ## Claim theorems -/

/-- C8 counterexample: `quic_timeout_ms = 2^32` is positive, yet the idle
timeout actually installed is `(2^32) as u32 = 0` milliseconds, not
`quic_timeout_ms` milliseconds as the claim states (the keep-alive is
`2^33 / 3` as claimed). -/
theorem claim_C8_counterexample :
    prepare_login_config_timeouts 4294967296 = some (0, 2863311530) ∧
    (0 : Nat) ≠ 4294967296 := by
  exact ⟨rfl, by decide⟩

/-- C8 amended: with `quic_timeout_ms = 0` neither idle timeout nor
keep-alive is set; otherwise the idle timeout is `quic_timeout_ms mod 2^32`
milliseconds (the source truncates with `as u32`) and the keep-alive is
`quic_timeout_ms * 2 / 3` milliseconds in u64 arithmetic; in particular for
every positive value below `2^32` the idle timeout is exactly
`quic_timeout_ms` and the keep-alive exactly two thirds of it, as the claim
states. -/
theorem claim_C8_amended (ms : Nat) :
    (ms = 0 → prepare_login_config_timeouts ms = none) ∧
    (0 < ms → prepare_login_config_timeouts ms =
      some (ms % 4294967296, ms * 2 % 18446744073709551616 / 3)) ∧
    (0 < ms → ms < 4294967296 →
      prepare_login_config_timeouts ms = some (ms, ms * 2 / 3)) := by
  refine ⟨?_, ?_, ?_⟩
  · intro h
    simp [prepare_login_config_timeouts, h]
  · intro h
    simp [prepare_login_config_timeouts, h]
  · intro h h32
    have h1 : ms % 4294967296 = ms := Nat.mod_eq_of_lt h32
    have h2 : ms * 2 % 18446744073709551616 = ms * 2 :=
      Nat.mod_eq_of_lt (by omega)
    simp [prepare_login_config_timeouts, h, h1, h2]

/-- C8 witness: a 9-second timeout yields a 9-second idle timeout and a
6-second keep-alive. -/
theorem claim_C8_witness :
    prepare_login_config_timeouts 9000 = some (9000, 6000) := by
  have h := (claim_C8_amended 9000).2.2 (by decide) (by decide)
  simpa using h

/-- C2: when a serve routine returns, `connect_and_serve` only removes the
connection and endpoint from the state table; `total_traffic_data` is never
updated — no code in the client writes it — so after deregistering a
connection with final counters (5, 6, 7, 8) the lifetime total is still all
zeroes, not the counters of the removed connection as the claim (and the
spec's StateTable invariant 3) require. -/
theorem claim_C2_code_bug :
    (∀ (s : State) (a : Nat),
      (connect_and_serve_deregister s a).total_traffic_data =
        s.total_traffic_data) ∧
    (connect_and_serve_deregister traffic_state 7).connections = [] ∧
    (connect_and_serve_deregister traffic_state 7).total_traffic_data =
      ⟨0, 0, 0, 0⟩ ∧
    TunnelTraffic.mk 0 0 0 0 ≠ TunnelTraffic.mk 5 6 7 8 := by
  exact ⟨fun s a => rfl, by decide, by decide, by decide⟩

/-- C3 counterexample: from a `Terminated` client, calling `stop` (whose
first step is an unconditional `set_and_post_tunnel_state(Stopping)`) moves
`client_state` back to `Stopping`, so the state does regress from
`Terminated`. -/
theorem claim_C3_counterexample :
    terminated_state.client_state = ClientState.Terminated ∧
    (stop terminated_state).1.client_state = ClientState.Stopping ∧
    ClientState.Stopping ≠ ClientState.Terminated := by
  exact ⟨rfl, rfl, by decide⟩

/-- C3 amended: `set_and_post_tunnel_state` assigns the new state
unconditionally, with no guard on the current state; consequently every
`stop` call leaves the state at `Stopping`, every `stop_async` call at
`Terminated`, and every login attempt starts by setting `Connecting` — each
regardless of the current state, so `Terminated` persists only until the next
state-setting operation and is not absorbing. -/
theorem claim_C3_amended :
    (∀ (s : State) (cs : ClientState),
      (set_and_post_tunnel_state s cs).client_state = cs) ∧
    (∀ s : State, (stop s).1.client_state = ClientState.Stopping) ∧
    (∀ s : State, (stop_async s).1.client_state = ClientState.Terminated) ∧
    (∀ s : State, (login_set_connecting s).client_state =
      ClientState.Connecting) := by
  exact ⟨fun s cs => rfl, fun s => rfl, fun s => rfl, fun s => rfl⟩

/-- C6: for every login attempt, a `RespFailure(msg)` response fails with a
login error carrying the tunnel index, the remote address and the message;
any response not recognized as success fails with an unexpected-response
error (also carrying index and remote address, as the source formats them
into the text); and on a success response the message post-handler is
invoked and the connection is returned. -/
theorem claim_C6 (index : Nat) (remote : SockAddrM) (conn : Nat)
    (resp : TunnelMessage) :
    (∀ msg, resp = TunnelMessage.RespFailure msg →
      login_handle_response index remote conn resp =
        Except.error (LoginError.loginFailure index remote msg)) ∧
    (is_resp_success resp = false →
      (∀ msg, resp ≠ TunnelMessage.RespFailure msg) →
      login_handle_response index remote conn resp =
        Except.error (LoginError.unexpectedResponse index remote)) ∧
    (is_resp_success resp = true →
      login_handle_response index remote conn resp =
        Except.ok ⟨conn, true⟩) := by
  cases resp <;>
    simp [login_handle_response, is_resp_success]

/-- C6 witness: a concrete failed login: index 3, remote 1.2.3.4:3515,
response `RespFailure "bad password"`. -/
theorem claim_C6_witness :
    login_handle_response 3 ⟨IpAddrM.v4 1 2 3 4, 3515, 0⟩ 9
        (TunnelMessage.RespFailure "bad password") =
      Except.error
        (LoginError.loginFailure 3 ⟨IpAddrM.v4 1 2 3 4, 3515, 0⟩
          "bad password") := by
  exact (claim_C6 3 ⟨IpAddrM.v4 1 2 3 4, 3515, 0⟩ 9
    (TunnelMessage.RespFailure "bad password")).1 "bad password" rfl

/-- C4 counterexample: `server_addr = "1.2.3.4"` with an empty `cert_path`
is a literal address, so the claim requires the insecure accept-any verifier
with TLS server name `localhost`; but `is_ip_addr` tests `SocketAddr`
parsing, which a bare IP without a port fails, so the code takes the
platform-verifier branch with server name `1.2.3.4`. -/
theorem claim_C4_counterexample :
    parse_client_config_and_domain true "" "1.2.3.4" none =
      Except.ok (TlsVerifier.platformTrust, "1.2.3.4") ∧
    parse_client_config_and_domain true "" "1.2.3.4" none ≠
      Except.ok (TlsVerifier.insecureAcceptAny, "localhost") := by
  exact ⟨rfl, by decide⟩

/-- C4 amended: the three-way split is decided by whether `server_addr`
parses as a literal SOCKET address (`ip:port`), not by hostname versus
literal address: with an empty `cert_path`, an address that does not parse
as a socket address (hostnames, but also bare IP literals without a port)
uses the platform trust store with the text before the last colon as TLS
server name; one that does parse uses the insecure accept-any verifier with
server name `localhost`; and a non-empty `cert_path` whose file yields at
least one PEM certificate uses a fresh root store holding exactly those
certificates, with the host portion of the server address as server name. -/
theorem claim_C4_amended (cert_path server_addr : String)
    (pem_certificates : Option (List Nat)) :
    (cert_path = "" → is_ip_addr server_addr = false →
      parse_client_config_and_domain true cert_path server_addr
          pem_certificates =
        Except.ok (TlsVerifier.platformTrust,
          extract_domain_or_ip server_addr)) ∧
    (cert_path = "" → is_ip_addr server_addr = true →
      parse_client_config_and_domain true cert_path server_addr
          pem_certificates =
        Except.ok (TlsVerifier.insecureAcceptAny, "localhost")) ∧
    (cert_path ≠ "" → ∀ certs, pem_certificates = some certs → certs ≠ [] →
      parse_client_config_and_domain true cert_path server_addr
          pem_certificates =
        Except.ok (TlsVerifier.pinnedRoots certs,
          extract_domain_or_ip server_addr)) := by
  refine ⟨?_, ?_, ?_⟩
  · intro hcert hip
    simp [parse_client_config_and_domain, hcert, hip]
  · intro hcert hip
    simp [parse_client_config_and_domain, hcert, hip]
  · intro hcert certs hpem hne
    cases certs with
    | nil => exact absurd rfl hne
    | cons c cs =>
      simp [parse_client_config_and_domain, hcert, hpem]

/-- C4 witness: a literal socket address without certificate takes the
insecure branch, and a hostname with a two-certificate PEM file takes the
pinned-roots branch with the port stripped from the server name. -/
theorem claim_C4_witness :
    parse_client_config_and_domain true "" "127.0.0.1:3515" none =
      Except.ok (TlsVerifier.insecureAcceptAny, "localhost") ∧
    parse_client_config_and_domain true "ca.pem" "peer.example:4000"
        (some [21, 22]) =
      Except.ok (TlsVerifier.pinnedRoots [21, 22], "peer.example") := by
  constructor
  · exact (claim_C4_amended "" "127.0.0.1:3515" none).2.1 rfl (by decide)
  · have h := (claim_C4_amended "ca.pem" "peer.example:4000"
      (some [21, 22])).2.2 (by decide) [21, 22] rfl (by decide)
    exact h.trans (by decide)

/-- A colon-free character list has no last-colon split. -/
theorem splitLastColon_eq_none_of_no_colon (cs : List Char)
    (h : ∀ c ∈ cs, c ≠ ':') : splitLastColon cs = none := by
  induction cs with
  | nil => rfl
  | cons c rest ih =>
    have hrest : splitLastColon rest = none :=
      ih (fun x hx => h x (List.mem_cons_of_mem _ hx))
    have hc : c ≠ ':' := h c (List.mem_cons_self _ _)
    simp [splitLastColon, hrest, hc]

/-- Splitting at the last colon: when the suffix after a colon is
colon-free, that colon is the last one, so the split returns the parts
around it. -/
theorem splitLastColon_append (pre post : List Char)
    (h : ∀ c ∈ post, c ≠ ':') :
    splitLastColon (pre ++ ':' :: post) = some (pre, post) := by
  induction pre with
  | nil =>
    simp [splitLastColon, splitLastColon_eq_none_of_no_colon post h]
  | cons c pre ih =>
    simp [splitLastColon, ih]

/-- C10: for a `server_addr` that is not a literal socket address, the host
used as TLS server name (`extract_domain_or_ip`) and as DNS query name
(`parse_server_addr`) is the text before the LAST colon — the whole string
when no colon occurs — and the port is parsed from the text after that last
colon; both functions perform the same split, with no validation of the host
portion, so an unbracketed IPv6 literal such as `fe80::1` is split at its
last colon into host `fe80:` and port 1. -/
theorem claim_C10 :
    (∀ s : String, (∀ c ∈ s.data, c ≠ ':') → extract_domain_or_ip s = s) ∧
    (∀ pre post : List Char, (∀ c ∈ post, c ≠ ':') →
      extract_domain_or_ip (String.mk (pre ++ ':' :: post)) =
        String.mk pre) ∧
    (∀ (pre post : List Char) (p : Nat), (∀ c ∈ post, c ≠ ':') →
      parse_u16 post = some p →
      parse_server_addr_domain_port (String.mk (pre ++ ':' :: post)) =
        Except.ok (String.mk pre, p)) ∧
    (∀ (s d : String) (p : Nat),
      parse_server_addr_domain_port s = Except.ok (d, p) →
      d = extract_domain_or_ip s) ∧
    (parse_socket_addr "fe80::1" = none ∧
      extract_domain_or_ip "fe80::1" = "fe80:" ∧
      parse_server_addr_domain_port "fe80::1" = Except.ok ("fe80:", 1)) := by
  refine ⟨?_, ?_, ?_, ?_, by decide, by decide, by decide⟩
  · intro s h
    simp [extract_domain_or_ip, splitLastColon_eq_none_of_no_colon s.data h]
  · intro pre post h
    simp [extract_domain_or_ip, splitLastColon_append pre post h]
  · intro pre post p h hp
    simp [parse_server_addr_domain_port, splitLastColon_append pre post h, hp]
  · intro s d p h
    unfold parse_server_addr_domain_port at h
    unfold extract_domain_or_ip
    cases hsplit : splitLastColon s.data with
    | none =>
      rw [hsplit] at h
      cases h
      rfl
    | some pp =>
      obtain ⟨pre, post⟩ := pp
      rw [hsplit] at h
      cases hp : parse_u16 post with
      | none => simp [hp] at h
      | some q =>
        simp [hp] at h
        simp [h.1]

/-- C10 witness: the split of `fe80::1` through the general last-colon
lemma: host `fe80:`, port text `1`. -/
theorem claim_C10_witness :
    extract_domain_or_ip (String.mk (['f', 'e', '8', '0', ':'] ++
        ':' :: ['1'])) = String.mk ['f', 'e', '8', '0', ':'] ∧
    parse_server_addr_domain_port (String.mk (['f', 'e', '8', '0', ':'] ++
        ':' :: ['1'])) = Except.ok (String.mk ['f', 'e', '8', '0', ':'], 1) := by
  constructor
  · exact claim_C10.2.1 ['f', 'e', '8', '0', ':'] ['1'] (by decide)
  · exact claim_C10.2.2.1 ['f', 'e', '8', '0', ':'] ['1'] 1 (by decide) (by decide)

/-- The DoT loop is the first success over the per-server lookups in
order. -/
theorem try_dot_servers_eq_first_some (lookup : LookupOracle) (domain : String)
    (dots : List String) :
    try_dot_servers lookup domain dots =
      first_some (dots.map (fun dot => lookup domain dot [])) := by
  induction dots with
  | nil => rfl
  | cons dot rest ih =>
    simp only [try_dot_servers, List.map_cons, first_some]
    cases lookup domain dot [] with
    | some ip => rfl
    | none => exact ih

/-- A successful prefix short-circuits `first_some` over an appended list. -/
theorem first_some_append_of_some {α : Type} (xs ys : List (Option α)) (a : α)
    (h : first_some xs = some a) : first_some (xs ++ ys) = some a := by
  induction xs with
  | nil => cases h
  | cons o rest ih =>
    cases o with
    | some b => simpa [first_some] using h
    | none =>
      simp only [first_some] at h ⊢
      exact ih h

/-- A fully failing prefix passes `first_some` on to the rest. -/
theorem first_some_append_of_none {α : Type} (xs ys : List (Option α))
    (h : first_some xs = none) : first_some (xs ++ ys) = first_some ys := by
  induction xs with
  | nil => rfl
  | cons o rest ih =>
    cases o with
    | some b => cases h
    | none =>
      simp only [first_some] at h ⊢
      exact ih h

/-- C5: `parse_server_addr` coincides with the resolution ladder written
from the spec — return a literal socket address as-is, otherwise split off
the port (default 3515) and short-circuit on the first success among: each
configured DoT server in order, then the configured plain DNS servers, then
system DNS, with a fatal error when everything fails.  A literal socket
address is returned as-is regardless of every oracle, and a colon-free
input resolves with the default port 3515. -/
theorem claim_C5 (server_addr : String) (dot_servers dns_servers : List String)
    (lookup : LookupOracle) :
    parse_server_addr server_addr dot_servers dns_servers lookup =
      resolve_spec server_addr dot_servers dns_servers lookup ∧
    (∀ sa, parse_socket_addr server_addr = some sa →
      parse_server_addr server_addr dot_servers dns_servers lookup =
        Except.ok sa) ∧
    ((∀ c ∈ server_addr.data, c ≠ ':') →
      parse_server_addr_domain_port server_addr =
        Except.ok (server_addr, DEFAULT_SERVER_PORT)) := by
  refine ⟨?_, ?_, ?_⟩
  · unfold parse_server_addr resolve_spec
    cases parse_socket_addr server_addr with
    | some sa => rfl
    | none =>
      cases parse_server_addr_domain_port server_addr with
      | error e => rfl
      | ok dp =>
        obtain ⟨domain, port⟩ := dp
        simp only
        cases hdot : try_dot_servers lookup domain dot_servers with
        | some ip =>
          rw [first_some_append_of_some _ _ ip
            ((try_dot_servers_eq_first_some lookup domain dot_servers) ▸ hdot)]
        | none =>
          rw [first_some_append_of_none _ _
            ((try_dot_servers_eq_first_some lookup domain dot_servers) ▸ hdot)]
          cases lookup domain "" dns_servers with
          | some ip => rfl
          | none =>
            cases lookup domain "" [] with
            | some ip => rfl
            | none => rfl
  · intro sa h
    unfold parse_server_addr
    rw [h]
  · intro h
    simp [parse_server_addr_domain_port,
      splitLastColon_eq_none_of_no_colon server_addr.data h]

/-- C5 witness: a literal socket address short-circuits the ladder even when
every resolver fails, and a colon-free host gets the default port 3515. -/
theorem claim_C5_witness :
    parse_server_addr "1.2.3.4:99" [] [] (fun _ _ _ => none) =
      Except.ok ⟨IpAddrM.v4 1 2 3 4, 99, 0⟩ ∧
    parse_server_addr_domain_port "examplehost" =
      Except.ok ("examplehost", DEFAULT_SERVER_PORT) := by
  constructor
  · exact (claim_C5 "1.2.3.4:99" [] [] (fun _ _ _ => none)).2.1
      ⟨IpAddrM.v4 1 2 3 4, 99, 0⟩ (by decide)
  · exact (claim_C5 "examplehost" [] [] (fun _ _ _ => none)).2.2 (by decide)

/-- With every attempt failing and the abort predicate never firing, the
retry loop runs through all its fuel and gives up after `fuel + 1`
attempts. -/
theorem retry_loop_all_fail (attempt quitAfter : Nat → Bool)
    (ha : ∀ j, attempt j = false) (hq : ∀ j, quitAfter j = false)
    (fuel : Nat) : ∀ k, retry_loop attempt quitAfter fuel k =
      RetryOutcome.exhausted (k + fuel + 1) := by
  induction fuel with
  | zero =>
    intro k
    simp [retry_loop, ha k, hq k]
  | succ n ih =>
    intro k
    simp only [retry_loop, ha k, hq k, if_false, Bool.false_eq_true]
    rw [ih (k + 1)]
    congr 1
    omega

/-- The retry loop performs at most `fuel + 1` attempts beyond the `k`
already counted. -/
theorem retry_loop_attempts_le (attempt quitAfter : Nat → Bool) (fuel : Nat) :
    ∀ k, (retry_loop attempt quitAfter fuel k).attempts ≤ k + fuel + 1 := by
  induction fuel with
  | zero =>
    intro k
    cases ha : attempt k <;> cases hq : quitAfter k <;>
      simp [retry_loop, ha, hq, RetryOutcome.attempts]
  | succ n ih =>
    intro k
    cases ha : attempt k with
    | true => simp [retry_loop, ha, RetryOutcome.attempts]
    | false =>
      cases hq : quitAfter k with
      | true => simp [retry_loop, ha, hq, RetryOutcome.attempts]
      | false =>
        simp only [retry_loop, ha, hq, if_false, Bool.false_eq_true]
        have := ih (k + 1)
        omega

/-- C7 counterexample: the connection-establishment retry is NOT unbounded:
`backon` is configured with `max_times(usize::MAX)`, so with every attempt
failing and `should_quit()` never observing `Stopping` or `Terminated`, the
loop still gives up — with an error, not an abort — after exactly
`usize::MAX + 1` attempts. -/
theorem claim_C7_counterexample :
    connect_with_retry (fun _ => false) (fun _ => false) =
      RetryOutcome.exhausted (USIZE_MAX + 1) := by
  have h := retry_loop_all_fail (fun _ => false) (fun _ => false)
    (fun _ => rfl) (fun _ => rfl) USIZE_MAX 0
  simpa [connect_with_retry] using h

/-- C7 amended: connection establishment retries with exponential backoff
(1 s initial delay, doubling) capped at 10 s, performing at most
`usize::MAX + 1` attempts — practically but not literally unbounded — and
stopping early exactly when `should_quit()` observes `Stopping` or
`Terminated` after a failed attempt; local TCP/UDP server binding uses the
same backoff shape with at most 10 retry attempts (11 attempts in all)
before returning an error, and `should_quit` holds exactly in the
`Stopping` and `Terminated` states. -/
theorem claim_C7_amended :
    (∀ k, backoff_delay_ms k ≤ 10000) ∧
    (∀ k, k ≤ 3 → backoff_delay_ms k = 1000 * 2 ^ k) ∧
    (∀ k, 4 ≤ k → backoff_delay_ms k = 10000) ∧
    (∀ (attempt quitAfter : Nat → Bool) (fuel k : Nat),
      attempt k = false → quitAfter k = true →
      retry_loop attempt quitAfter fuel k = RetryOutcome.aborted (k + 1)) ∧
    (∀ attempt quitAfter : Nat → Bool,
      (connect_with_retry attempt quitAfter).attempts ≤ USIZE_MAX + 1) ∧
    (∀ attempt : Nat → Bool, (bind_with_retry attempt).attempts ≤ 11) ∧
    (∀ attempt : Nat → Bool, (∀ j, attempt j = false) →
      bind_with_retry attempt = RetryOutcome.exhausted 11) ∧
    (∀ s : State, should_quit s = true ↔
      (s.client_state = ClientState.Stopping ∨
        s.client_state = ClientState.Terminated)) := by
  refine ⟨?_, ?_, ?_, ?_, ?_, ?_, ?_, ?_⟩
  · intro k
    exact min_le_right _ _
  · intro k hk
    have h2 : 2 ^ k ≤ 8 := by
      calc 2 ^ k ≤ 2 ^ 3 := Nat.pow_le_pow_right (by omega) hk
      _ = 8 := by norm_num
    exact min_eq_left (by omega)
  · intro k hk
    have h2 : 16 ≤ 2 ^ k := by
      calc (16 : Nat) = 2 ^ 4 := by norm_num
      _ ≤ 2 ^ k := Nat.pow_le_pow_right (by omega) hk
    exact min_eq_right (by omega)
  · intro attempt quitAfter fuel k ha hq
    cases fuel <;> simp [retry_loop, ha, hq]
  · intro attempt quitAfter
    have h := retry_loop_attempts_le attempt quitAfter USIZE_MAX 0
    simpa [connect_with_retry] using h
  · intro attempt
    have h := retry_loop_attempts_le attempt (fun _ => false) 10 0
    simpa [bind_with_retry] using h
  · intro attempt ha
    have h := retry_loop_all_fail attempt (fun _ => false) ha (fun _ => rfl) 10 0
    simpa [bind_with_retry] using h
  · intro s
    unfold should_quit
    cases h : s.client_state <;> decide

/-- C7 witness: a failed attempt with `should_quit` observed true aborts at
once, and a bind that always fails errors out after its 10 retries. -/
theorem claim_C7_witness :
    retry_loop (fun _ => false) (fun _ => true) 5 0 =
      RetryOutcome.aborted 1 ∧
    bind_with_retry (fun _ => false) = RetryOutcome.exhausted 11 ∧
    should_quit terminated_state = true := by
  refine ⟨?_, ?_, ?_⟩
  · exact claim_C7_amended.2.2.2.1 (fun _ => false) (fun _ => true) 5 0 rfl rfl
  · exact claim_C7_amended.2.2.2.2.2.2.1 (fun _ => false) (fun _ => rfl)
  · exact (claim_C7_amended.2.2.2.2.2.2.2 terminated_state).mpr (Or.inr rfl)

/-- A migration oracle whose bind always hands out port 4242 and whose
rebind always succeeds. -/
def happy_migration_env : MigrationEnv where
  bind := fun a => some { a with port := 4242 }
  rebind := fun _ _ => true

/-- A state with two endpoints: address 1 holds an open connection, address
2 a connection that has recorded a close reason. -/
def migration_state : State where
  tcp_servers := []
  udp_servers := []
  endpoints := [(1, ⟨10, some ⟨IpAddrM.v4 127 0 0 1, 5000, 0⟩⟩),
    (2, ⟨11, some ⟨IpAddrM.v4 127 0 0 1, 5001, 0⟩⟩)]
  connections := [(1, ⟨20, ⟨0, 0, 0, 0⟩, none⟩), (2, ⟨21, ⟨0, 0, 0, 0⟩, some 1⟩)]
  client_state := ClientState.Tunneling
  total_traffic_data := ⟨0, 0, 0, 0⟩
  on_info_report_enabled := false
  migration_stop_sender := some 5
  migration_handle := some 6

/-- C9: on a migration tick the snapshot taken under the lock holds exactly
the (address, endpoint) pairs whose registered connection has no recorded
close reason; every snapshotted endpoint is then processed — the tick
output lists the very addresses of the snapshot in order, for every oracle,
so a bind or rebind failure (an `Except.error` entry) never prevents the
remaining endpoints from being processed or aborts the task; and each
rebind targets a kernel-assigned (port 0 requested) unspecified address of
the same IP family as the endpoint's current local address. -/
theorem claim_C9 (env : MigrationEnv) (s : State) :
    (∀ (a : Nat) (e : Endpoint), (a, e) ∈ migration_snapshot s ↔
      ((a, e) ∈ s.endpoints ∧ ∃ c, lookupKey s.connections a = some c ∧
        c.close_reason = none)) ∧
    (∀ p ∈ migration_snapshot s,
      (p.1, perform_connection_migration env p.2) ∈ migration_tick env s) ∧
    (migration_tick env s).map Prod.fst =
      (migration_snapshot s).map Prod.fst ∧
    (∀ a : SockAddrM, (unspecified_same_family a).port = 0 ∧
      (unspecified_same_family a).ip.isV6 = a.ip.isV6 ∧
      (unspecified_same_family a).ip.isUnspecified = true) := by
  refine ⟨?_, ?_, ?_, ?_⟩
  · intro a e
    constructor
    · intro h
      obtain ⟨y, hy, hfy⟩ := List.mem_filterMap.mp h
      obtain ⟨ya, ye⟩ := y
      cases hl : lookupKey s.connections ya with
      | none => rw [hl] at hfy; simp at hfy
      | some c =>
        rw [hl] at hfy
        by_cases hcr : c.close_reason = none
        · simp [hcr] at hfy
          obtain ⟨h1, h2⟩ := hfy
          subst h1
          subst h2
          exact ⟨hy, c, hl, hcr⟩
        · simp [hcr] at hfy
    · rintro ⟨he, c, hl, hcr⟩
      refine List.mem_filterMap.mpr ⟨(a, e), he, ?_⟩
      simp [hl, hcr]
  · intro p hp
    exact List.mem_map_of_mem _ hp
  · simp [migration_tick, List.map_map]
  · intro a
    obtain ⟨ip, port, scope⟩ := a
    cases ip <;> simp [unspecified_same_family, IpAddrM.isV6,
      IpAddrM.isUnspecified]

/-- C9 witness: in `migration_state` the snapshot holds exactly address 1
(the open connection) and not address 2 (closed), and the tick migrates it
to the kernel-assigned port. -/
theorem claim_C9_witness :
    (1, Endpoint.mk 10 (some ⟨IpAddrM.v4 127 0 0 1, 5000, 0⟩)) ∈
      migration_snapshot migration_state ∧
    ¬ (2, Endpoint.mk 11 (some ⟨IpAddrM.v4 127 0 0 1, 5001, 0⟩)) ∈
      migration_snapshot migration_state ∧
    (1, Except.ok (⟨IpAddrM.v4 0 0 0 0, 4242, 0⟩ : SockAddrM)) ∈
      migration_tick happy_migration_env migration_state := by
  obtain ⟨hiff, hmem, _, _⟩ := claim_C9 happy_migration_env migration_state
  have h1 : (1, Endpoint.mk 10 (some ⟨IpAddrM.v4 127 0 0 1, 5000, 0⟩)) ∈
      migration_snapshot migration_state :=
    (hiff 1 _).mpr ⟨by decide, ⟨20, ⟨0, 0, 0, 0⟩, none⟩, by decide, rfl⟩
  refine ⟨h1, ?_, ?_⟩
  · intro h2
    have := ((hiff 2 _).mp h2).2
    obtain ⟨c, hl, hcr⟩ := this
    have hc : c = ⟨21, ⟨0, 0, 0, 0⟩, some 1⟩ := by
      have : lookupKey migration_state.connections 2 =
          some ⟨21, ⟨0, 0, 0, 0⟩, some 1⟩ := by decide
      rw [this] at hl
      exact (Option.some.inj hl).symm
    rw [hc] at hcr
    cases hcr
  · have h3 := hmem _ h1
    simpa using h3

/-- C1 counterexample: from a live tunneling state, `stop` leaves
`client_state` at `Stopping` — it never sets `Terminated` — and neither
`stop` nor `stop_async` clears the `endpoints` map, so the claim that each
operation clears the StateTable collections and finally sets `Terminated`
fails on `stop` and on the `endpoints` collection. -/
theorem claim_C1_counterexample :
    (stop live_state).1.client_state = ClientState.Stopping ∧
    ClientState.Stopping ≠ ClientState.Terminated ∧
    (stop live_state).1.endpoints ≠ [] ∧
    (stop_async live_state).1.endpoints ≠ [] := by
  exact ⟨rfl, by decide, by decide, by decide⟩

/-- C1 amended: `stop_async` sets `Stopping`, signals the migration
scheduler exactly when a stop sender is registered, awaits the migration
task, initiates shutdown on every registered TCP and UDP server, closes
every registered QUIC connection with application error code 1 and empty
reason, clears `tcp_servers`, `udp_servers`, `connections` and both
migration fields — but not `endpoints` — and finally sets `Terminated`.
`stop` performs the same signaling, shutdown, close and clearing steps but
never sets `Terminated`: it leaves `client_state` at `Stopping` and sleeps a
3-second grace.  Each operation run twice produces the same final state as
run once, the second run scheduling no shutdown or close work; only
`stop_async` reaches `Terminated`. -/
theorem claim_C1_amended (s : State) :
    (stop_async s).1.client_state = ClientState.Terminated ∧
    (stop_async s).1.tcp_servers = [] ∧
    (stop_async s).1.udp_servers = [] ∧
    (stop_async s).1.connections = [] ∧
    (stop_async s).1.migration_stop_sender = none ∧
    (stop_async s).1.migration_handle = none ∧
    (stop_async s).1.endpoints = s.endpoints ∧
    (StopAction.signalMigration ∈ (stop_async s).2 ↔
      s.migration_stop_sender ≠ none) ∧
    (∀ p ∈ s.tcp_servers, StopAction.shutdownTcp p.2 ∈ (stop_async s).2) ∧
    (∀ p ∈ s.udp_servers, StopAction.shutdownUdp p.2 ∈ (stop_async s).2) ∧
    (∀ p ∈ s.connections,
      StopAction.closeConn p.2.id 1 [] ∈ (stop_async s).2) ∧
    (stop s).1.client_state = ClientState.Stopping ∧
    (stop s).1.tcp_servers = [] ∧
    (stop s).1.udp_servers = [] ∧
    (stop s).1.connections = [] ∧
    (stop s).1.endpoints = s.endpoints ∧
    (∀ p ∈ s.connections, StopAction.closeConn p.2.id 1 [] ∈ (stop s).2) ∧
    (stop_async (stop_async s).1).1 = (stop_async s).1 ∧
    (stop_async (stop_async s).1).2 = [] ∧
    (stop (stop s).1).1 = (stop s).1 ∧
    (stop (stop s).1).2 = [StopAction.sleepGrace 3] := by
  obtain ⟨tcpS, udpS, eps, conns, cs, tt, oire, sender, handle⟩ := s
  cases sender <;> cases handle <;>
    refine ⟨rfl, rfl, rfl, rfl, rfl, rfl, rfl, ?_, ?_, ?_, ?_, rfl, rfl, rfl,
      rfl, rfl, ?_, rfl, rfl, rfl, rfl⟩ <;>
    first
      | exact fun p hp => List.mem_append_left _ (List.mem_append_left _
          (List.mem_append_right _ (List.mem_map_of_mem _ hp)))
      | exact fun p hp => List.mem_append_left _ (List.mem_append_right _
          (List.mem_map_of_mem _ hp))
      | exact fun p hp => List.mem_append_right _ (List.mem_map_of_mem _ hp)
      | simp [stop_async, set_and_post_tunnel_state]

/-- C1 witness: on the live state, `stop_async` terminates with the
signal sent, both servers shut down and the connection closed with code 1
and empty reason. -/
theorem claim_C1_witness :
    (stop_async live_state).1.client_state = ClientState.Terminated ∧
    StopAction.signalMigration ∈ (stop_async live_state).2 ∧
    StopAction.shutdownTcp 11 ∈ (stop_async live_state).2 ∧
    StopAction.shutdownUdp 12 ∈ (stop_async live_state).2 ∧
    StopAction.closeConn 200 1 [] ∈ (stop_async live_state).2 := by
  obtain ⟨h1, _, _, _, _, _, _, hsig, htcp, hudp, hconn, _⟩ :=
    claim_C1_amended live_state
  refine ⟨h1, hsig.mpr (by decide), ?_, ?_, ?_⟩
  · exact htcp (1, 11) (by decide)
  · exact hudp (2, 12) (by decide)
  · exact hconn (3, ⟨200, ⟨1, 2, 3, 4⟩, none⟩) (by decide)

end Rstun
